import Mathlib

/-!
Shallow embedding of the product-feed ingestion core of the
ProductManagementService repository (backend/products/core.py,
backend/products/utils.py, backend/products/models.py,
backend/products/tasks/product.py).

XML elements are modelled by their tag, attribute list and optional text,
exactly the data `xml.etree.ElementTree` exposes to the code under
verification.  Tags are kept in the qualified spelling used by the source
("g:id", "title", ...): the namespace dictionary passed around in the source
is the fixed constant {"g": "http://base.google.com/ns/1.0"}, so namespace
resolution is an injective renaming of tags and is absorbed into the tag
strings.  Numbers are modelled by `Rat` (Python floats hold the decimal
literals of the feed exactly at the scale used here) and `Int`.
-/

/-- Error values raised by the Python code paths that the ingestion core can
hit: XML document parse failure, `float`/`int` conversion failure
(`ValueError`), empty-sequence indexing (`IndexError`) and database
constraint violations (`IntegrityError`). -/
inductive PyErr where
  | parseError (msg : String)
  | valueError
  | indexError
  | integrityError
deriving DecidableEq, Repr

/-- One XML element as seen through the ElementTree API used by the source:
its tag, its attribute dictionary (`attrib`) and its optional text. -/
structure Elem where
  tag : String
  attrib : List (String × String)
  text : Option String
deriving DecidableEq, Repr

/-- One `<item>` node of the feed, i.e. the list of its child elements. -/
structure Item where
  children : List Elem
deriving DecidableEq, Repr

/-- Models `item.find(tag, namespace)` for a plain tag path: the first child
element with the given (namespace-resolved) tag, or `None`. -/
def findTag (item : Item) (tag : String) : Option Elem :=
  item.children.find? (fun c => c.tag == tag)

/-- Models `item.find("appLink[@property=...]")`: the first `appLink` child
whose `property` attribute equals the given value, or `None`. -/
def findAppLink (item : Item) (prop : String) : Option Elem :=
  item.children.find? (fun c => c.tag == "appLink" && List.lookup "property" c.attrib == some prop)

/-- Models Python truthiness of an `Optional[str]`: `None` and the empty
string are falsy, every other string is truthy. -/
def pyTruthy : Option String → Bool
  | none => false
  | some s => s != ""

/-- Models `x or d` for `x : Optional[str]` and a string `d`: `d` when `x`
is `None` or empty, otherwise `x`. -/
def pyOr (x : Option String) (d : String) : String :=
  match x with
  | some s => if s == "" then d else s
  | none => d

/-- Maximal runs of non-whitespace characters, accumulating the current
token in reverse. -/
def wsTokensAux : List Char → List Char → List String
  | [], acc => if acc.isEmpty then [] else [String.mk acc.reverse]
  | c :: rest, acc =>
    if c.isWhitespace then
      if acc.isEmpty then wsTokensAux rest []
      else String.mk acc.reverse :: wsTokensAux rest []
    else wsTokensAux rest (c :: acc)

/-- Models `s.split()` (no separator argument): the maximal runs of
non-whitespace characters, in order, with no empty pieces. -/
def pySplit (s : String) : List String :=
  wsTokensAux s.data []

/-- Surrounding whitespace stripped from a character list (the stripping
`int`/`float` perform on their argument). -/
def trimChars (cs : List Char) : List Char :=
  ((cs.dropWhile Char.isWhitespace).reverse.dropWhile Char.isWhitespace).reverse

/-- Numeric value of a list of decimal digit characters. -/
def digitsToNat (cs : List Char) : Nat :=
  cs.foldl (fun a c => a * 10 + (c.toNat - 48)) 0

/-- Models Python's built-in `int(s)` on plain decimal literals: surrounding
whitespace is stripped, an optional sign is allowed, the remainder must be a
non-empty run of digits; anything else raises `ValueError` (`none` here).
Underscore digit grouping is not modelled. -/
def pyInt (s : String) : Option Int :=
  let cs := trimChars s.data
  match cs with
  | '-' :: r => if !r.isEmpty && r.all Char.isDigit then some (-(digitsToNat r : Int)) else none
  | '+' :: r => if !r.isEmpty && r.all Char.isDigit then some (digitsToNat r : Int) else none
  | _ => if !cs.isEmpty && cs.all Char.isDigit then some (digitsToNat cs : Int) else none

/-- Models Python's built-in `float(s)` on plain decimal literals:
surrounding whitespace is stripped, an optional sign, then digits with at
most one decimal point and at least one digit in total; anything else raises
`ValueError` (`none` here).  Scientific notation, `inf`/`nan` and underscore
grouping are not modelled; the feeds under test only carry plain decimals. -/
def pyFloat (s : String) : Option Rat :=
  let cs := trimChars s.data
  let signed : Bool × List Char :=
    match cs with
    | '-' :: r => (true, r)
    | '+' :: r => (false, r)
    | _ => (false, cs)
  let neg := signed.1
  let ds := signed.2
  match ds.span (fun c => c != '.') with
  | (ip, []) =>
      if !ip.isEmpty && ip.all Char.isDigit then
        some (if neg then -(digitsToNat ip : Rat) else (digitsToNat ip : Rat))
      else none
  | (ip, _ :: fp) =>
      if (!ip.isEmpty || !fp.isEmpty) && ip.all Char.isDigit && fp.all Char.isDigit then
        let v : Rat := (digitsToNat ip : Rat) + (digitsToNat fp : Rat) / ((10 : Rat) ^ fp.length)
        some (if neg then -v else v)
      else none

/-- Models `s.lower()`: every character lowercased. -/
def lowerString (s : String) : String :=
  String.mk (s.data.map Char.toLower)

/-- Embeds `utils.get_text`: the element's text when the element is not
`None` and its text is not `None`, otherwise the default. -/
def get_text (element : Option Elem) (default : Option String) : Option String :=
  match element with
  | none => default
  | some e =>
    match e.text with
    | none => default
    | some t => some t

/-- Embeds `utils.get_float_text`:
`float(element.text.split()[0]) if element is not None and element.text else default`.
The guard uses Python truthiness of the text, splitting uses `str.split()`,
indexing an empty token list raises `IndexError`, and a non-numeric first
token raises `ValueError` from `float`. -/
def get_float_text (element : Option Elem) (default : Option Rat) : Except PyErr (Option Rat) :=
  match element with
  | none => Except.ok default
  | some e =>
    match e.text with
    | none => Except.ok default
    | some t =>
      if t == "" then Except.ok default
      else
        match pySplit t with
        | [] => Except.error PyErr.indexError
        | tok :: _ =>
          match pyFloat tok with
          | some v => Except.ok (some v)
          | none => Except.error PyErr.valueError

/-- Embeds `utils.get_attribute`: the named attribute's value when the
element is not `None` and has the attribute, otherwise the default.  The
source names the second parameter `attribute`, which is a keyword here, so
it is called `attrName`. -/
def get_attribute (element : Option Elem) (attrName : String) (default : Option String) : Option String :=
  match element with
  | none => default
  | some e =>
    match List.lookup attrName e.attrib with
    | some v => some v
    | none => default

/-- Embeds the `Product` Django model (models.py): one catalog record.
`CharField`/`URLField`/`TextField` columns are `Option String` (the mapper
passes `None` for absent elements), decimal columns are `Option Rat`,
`quantity` and `additional_images_count` are the `Int` values the mapper
always supplies, `adult` is the `Bool` the mapper always supplies. -/
structure Product where
  id : Option String
  title : Option String
  product_type : Option String
  link : Option String
  description : Option String
  image_link : Option String
  price : Option Rat
  sale_price : Option Rat
  old_price : Option Rat
  final_price : Option Rat
  discount_percent : Option String
  availability : Option String
  google_product_category : Option String
  brand : Option String
  gtin : Option String
  item_group_id : Option String
  condition : Option String
  age_group : Option String
  color : Option String
  gender : Option String
  gender_orig_value : Option String
  quantity : Int
  adult : Bool
  adwords_labels : Option String
  additional_images_count : Int
  ios_url : Option String
  ios_app_store_id : Option String
  ios_app_name : Option String
  android_package : Option String
  android_app_name : Option String
  options_percentage : Option Rat
  icon_media_url : Option String
  all_sizes_skus : Option String
  sizes_of_all_skus : Option String
  product_season : Option String
  product_class : Option String
  custom_label_0 : Option String
  custom_label_1 : Option String
  custom_label_2 : Option String
  custom_label_3 : Option String
  custom_label_4 : Option String
  iphone_app_name : Option String
  iphone_app_store_id : Option String
  iphone_url : Option String
deriving DecidableEq, Repr

/-- The catalog (the `Product` table): the list of persisted records in
insertion order. -/
abbrev Catalog := List Product

/-- Embeds `Product.objects.filter(id=product_id).exists()`: whether some
persisted record has the given id. -/
def catalogHas (cat : Catalog) (i : String) : Bool :=
  cat.any (fun r => r.id == some i)

/-- Whether every column declared NOT NULL in the model (no `null=True`
and populated by the mapper with an `Optional` value) is present. -/
def requiredFieldsPresent (p : Product) : Bool :=
  p.title.isSome && p.product_type.isSome && p.link.isSome && p.description.isSome &&
  p.image_link.isSome && p.price.isSome && p.availability.isSome && p.brand.isSome &&
  p.gtin.isSome && p.item_group_id.isSome && p.condition.isSome && p.age_group.isSome &&
  p.color.isSome && p.gender.isSome

/-- Embeds `Product.objects.create(...)` as it behaves against the model's
database constraints: inserting with a `None` primary key or a `None` value
in a NOT NULL column, or with an id that already exists, raises
`IntegrityError`; otherwise the record is appended to the table.  Column
length limits are not modelled (no claim exercises them). -/
def dbCreate (cat : Catalog) (p : Product) : Except PyErr Catalog :=
  match p.id with
  | none => Except.error PyErr.integrityError
  | some i =>
    if catalogHas cat i then Except.error PyErr.integrityError
    else if requiredFieldsPresent p then Except.ok (cat ++ [p])
    else Except.error PyErr.integrityError

/-- The pure field reads of `create_product_instance` (core.py): every
`get_text`/`get_attribute` extraction, which cannot fail, assembled into the
record together with the already-computed fallible numeric values.  Tag
names, defaults and coercions follow the source line by line; `adult` is
true only when the (truthy) text lowercases to "yes". -/
def buildProduct (item : Item)
    (price sale_price old_price final_price : Option Rat)
    (quantity additional_images_count : Int)
    (options_percentage : Option Rat) : Product :=
  let adult_str := get_text (findTag item "g:adult") (some "no")
  { id := get_text (findTag item "g:id") none
    title := get_text (findTag item "title") none
    product_type := get_text (findTag item "g:product_type") none
    link := get_text (findTag item "link") none
    description := get_text (findTag item "description") none
    image_link := get_text (findTag item "g:image_link") none
    price := price
    sale_price := sale_price
    old_price := old_price
    final_price := final_price
    discount_percent := get_text (findTag item "g:discount_percent") none
    availability := get_text (findTag item "g:availability") none
    google_product_category := get_text (findTag item "g:google_product_category") none
    brand := get_text (findTag item "g:brand") none
    gtin := get_text (findTag item "g:gtin") none
    item_group_id := get_text (findTag item "g:item_group_id") none
    condition := get_text (findTag item "g:condition") none
    age_group := get_text (findTag item "g:age_group") none
    color := get_text (findTag item "g:color") none
    gender := get_text (findTag item "g:gender") none
    gender_orig_value := get_text (findTag item "g:gender_orig_value") none
    quantity := quantity
    adult := if pyTruthy adult_str then lowerString (adult_str.getD "") == "yes" else false
    adwords_labels := get_text (findTag item "g:adwords_labels") none
    additional_images_count := additional_images_count
    ios_url := get_text (findTag item "g:ios_url") none
    ios_app_store_id := get_text (findTag item "g:ios_app_store_id") none
    ios_app_name := get_text (findTag item "g:ios_app_name") none
    android_package := get_text (findTag item "g:android_package") none
    android_app_name := get_text (findTag item "g:android_app_name") none
    options_percentage := options_percentage
    icon_media_url := get_text (findTag item "icon_media_url") none
    all_sizes_skus := get_text (findTag item "all_sizes_skus") none
    sizes_of_all_skus := get_text (findTag item "sizes_of_all_skus") none
    product_season := get_text (findTag item "product_season") none
    product_class := get_text (findTag item "product_class") none
    custom_label_0 := get_text (findTag item "g:custom_label_0") none
    custom_label_1 := get_text (findTag item "g:custom_label_1") none
    custom_label_2 := get_text (findTag item "g:custom_label_2") none
    custom_label_3 := get_text (findTag item "g:custom_label_3") none
    custom_label_4 := get_text (findTag item "g:custom_label_4") none
    iphone_app_name := get_attribute (findAppLink item "iphone_app_name") "content" none
    iphone_app_store_id := get_attribute (findAppLink item "iphone_app_store_id") "content" none
    iphone_url := get_attribute (findAppLink item "iphone_url") "content" none }

/-- Embeds `create_product_instance` (core.py): the fallible extractions are
sequenced in source order — `g:price`, `g:sale_price`, `g:oldprice`,
`g:finalprice` via `get_float_text`; `quantity` and
`additional_images_count` via `int(get_text(..., "0") or "0")`;
`options_percentage` via `get_float_text` — the pure reads are collected in
`buildProduct`, and the record is finally persisted with
`Product.objects.create`.  Any failure propagates as the raised exception. -/
def create_product_instance (cat : Catalog) (item : Item) : Except PyErr (Product × Catalog) :=
  match get_float_text (findTag item "g:price") none with
  | Except.error e => Except.error e
  | Except.ok price =>
  match get_float_text (findTag item "g:sale_price") none with
  | Except.error e => Except.error e
  | Except.ok sale_price =>
  match get_float_text (findTag item "g:oldprice") none with
  | Except.error e => Except.error e
  | Except.ok old_price =>
  match get_float_text (findTag item "g:finalprice") none with
  | Except.error e => Except.error e
  | Except.ok final_price =>
  match pyInt (pyOr (get_text (findTag item "g:quantity") (some "0")) "0") with
  | none => Except.error PyErr.valueError
  | some quantity =>
  match pyInt (pyOr (get_text (findTag item "additional_images_count") (some "0")) "0") with
  | none => Except.error PyErr.valueError
  | some additional_images_count =>
  match get_float_text (findTag item "options_percentage") none with
  | Except.error e => Except.error e
  | Except.ok options_percentage =>
  match dbCreate cat (buildProduct item price sale_price old_price final_price
      quantity additional_images_count options_percentage) with
  | Except.error e => Except.error e
  | Except.ok cat2 =>
    Except.ok (buildProduct item price sale_price old_price final_price
      quantity additional_images_count options_percentage, cat2)

/-- The accumulating state of one run of `handle_uploaded_file`: the three
result lists built so far and the catalog (database) as it stands.  The
catalog is threaded because `Product.objects.create` commits each record
immediately, so later existence checks observe earlier creates. -/
structure BatchState where
  existing : List String
  problematic : List String
  created : List Product
  catalog : Catalog
deriving DecidableEq, Repr

/-- Models `get_text(item.find("g:id", namespace), None)`, the id read at
the top of the ingestion loop. -/
def itemId (item : Item) : Option String :=
  get_text (findTag item "g:id") none

/-- One iteration of the `for item in root.findall("./channel/item")` loop
of `handle_uploaded_file`: if the id is truthy and already in the catalog,
append it to `existing` and continue; otherwise try
`create_product_instance` (whose serialized record is appended to the
created list on success — `ProductSerializer` carries all model fields, so
the serialized record is modelled as the record itself); on any exception,
append the id to `problematic` when it is truthy, otherwise touch no list. -/
def step (s : BatchState) (item : Item) : BatchState :=
  let product_id := itemId item
  if pyTruthy product_id && catalogHas s.catalog (product_id.getD "") then
    { s with existing := s.existing ++ [product_id.getD ""] }
  else
    match create_product_instance s.catalog item with
    | Except.ok (prod, cat2) =>
      { s with created := s.created ++ [prod], catalog := cat2 }
    | Except.error _ =>
      if pyTruthy product_id then
        { s with problematic := s.problematic ++ [product_id.getD ""] }
      else s

/-- The ingestion loop: `step` applied to each item in document order. -/
def processItems (s : BatchState) : List Item → BatchState
  | [] => s
  | item :: rest => processItems (step s item) rest

/-- One ingestion run started from empty result lists over a given catalog. -/
def runBatch (cat : Catalog) (items : List Item) : BatchState :=
  processItems { existing := [], problematic := [], created := [], catalog := cat } items

/-- Embeds `handle_uploaded_file` (core.py).  Its input is the outcome of
`ET.parse`/`root.findall("./channel/item")`: either a document-level parse
failure (re-raised unchanged) or the list of item nodes in document order.
On a parsed document it runs the loop and returns
`(existing_product_ids, problematic_product_ids, product_instances_list)`. -/
def handle_uploaded_file (parsed : Except String (List Item)) (cat : Catalog) :
    Except PyErr (List String × List String × List Product) :=
  match parsed with
  | Except.error msg => Except.error (PyErr.parseError msg)
  | Except.ok items =>
    let s := runBatch cat items
    Except.ok (s.existing, s.problematic, s.created)

/-- Embeds `DocumentEventsEnum.NOTIFY_SUCCESS.value` (enums.py). -/
def NOTIFY_SUCCESS : String := "notify_success"

/-- Embeds `DocumentEventsEnum.NOTIFY_FAILURE.value` (enums.py). -/
def NOTIFY_FAILURE : String := "notify_failure"

/-- The uploading user as consumed by the dispatchers: `user.email` and
`user.username`. -/
structure User where
  email : String
  username : String
deriving DecidableEq, Repr

/-- One admin recipient as consumed by the dispatchers: `admin.email`. -/
structure Admin where
  email : String
deriving DecidableEq, Repr

/-- The `notification_data` dictionary handed to `send_notification.send`.
Keys present only in one variant are `Option`-valued. -/
structure NotificationData where
  user_email : String
  user_name : String
  admin_email : String
  file_name : String
  existing_product_ids : Option (List String)
  problematic_product_ids : Option (List String)
  product : Option Product
  status : String
  error : Option String
deriving DecidableEq, Repr

/-- The success `notification_data` dictionary built inside
`notify_admins_for_products` for one (admin, product) pair. -/
def mkSuccessData (user : User) (file_name : String)
    (existing_product_ids problematic_product_ids : List String)
    (product : Product) (admin : Admin) : NotificationData :=
  { user_email := user.email
    user_name := user.username
    admin_email := admin.email
    file_name := file_name
    existing_product_ids := some existing_product_ids
    problematic_product_ids := some problematic_product_ids
    product := some product
    status := NOTIFY_SUCCESS
    error := none }

/-- The failure `notification_data` dictionary built inside
`notify_failure_to_admins` for one admin. -/
def mkFailureData (user : User) (file_name : String) (error : String)
    (admin : Admin) : NotificationData :=
  { user_email := user.email
    user_name := user.username
    admin_email := admin.email
    file_name := file_name
    existing_product_ids := none
    problematic_product_ids := none
    product := none
    status := NOTIFY_FAILURE
    error := some error }

/-- The inner `for product in products` loop of `notify_admins_for_products`:
enqueue one payload per product via the broker oracle `enqOk` (`true` means
`send_notification.send` succeeded).  The loop has no exception handler, so
a failing enqueue raises immediately: the pair (payloads enqueued, raised?)
records that nothing after the failure is enqueued. -/
def sendProducts (enqOk : NotificationData → Bool) (mk : Product → NotificationData) :
    List Product → List NotificationData × Bool
  | [] => ([], false)
  | p :: ps =>
    let d := mk p
    if enqOk d then
      let rest := sendProducts enqOk mk ps
      (d :: rest.1, rest.2)
    else ([], true)

/-- Embeds `notify_admins_for_products` (core.py): for each admin, for each
created product, build the success payload and enqueue it.  There is no
try/except in this function, so an enqueue failure propagates out of it,
abandoning all remaining payloads. -/
def notify_admins_for_products (enqOk : NotificationData → Bool) (user : User)
    (file_name : String) (products : List Product)
    (existing_product_ids problematic_product_ids : List String) :
    List Admin → List NotificationData × Bool
  | [] => ([], false)
  | admin :: rest =>
    let inner := sendProducts enqOk
      (fun p => mkSuccessData user file_name existing_product_ids problematic_product_ids p admin)
      products
    if inner.2 then (inner.1, true)
    else
      let outer := notify_admins_for_products enqOk user file_name products
        existing_product_ids problematic_product_ids rest
      (inner.1 ++ outer.1, outer.2)

/-- Embeds `notify_failure_to_admins` (core.py): for each admin, build the
failure payload and enqueue it inside a per-admin try/except, so a failing
enqueue is logged and skipped and the loop continues; the function itself
never raises (it is total and returns the enqueued payloads). -/
def notify_failure_to_admins (enqOk : NotificationData → Bool) (user : User)
    (file_name : String) (error : String) : List Admin → List NotificationData
  | [] => []
  | admin :: rest =>
    let d := mkFailureData user file_name error admin
    if enqOk d then d :: notify_failure_to_admins enqOk user file_name error rest
    else notify_failure_to_admins enqOk user file_name error rest

deriving instance DecidableEq for Except

/-- An element with text and no attributes, as parsed from `<tag>text</tag>`. -/
def mkTextElem (tag text : String) : Elem :=
  { tag := tag, attrib := [], text := some text }

/-- A feed item carrying every NOT NULL column, id "X", integral price "12",
no `g:quantity` element and no `g:sale_price` element. -/
def sampleItem : Item := ⟨[
  mkTextElem "g:id" "X", mkTextElem "title" "Shirt", mkTextElem "g:product_type" "Apparel",
  mkTextElem "link" "http://x/1", mkTextElem "description" "desc",
  mkTextElem "g:image_link" "http://x/i", mkTextElem "g:price" "12",
  mkTextElem "g:availability" "in stock", mkTextElem "g:brand" "B",
  mkTextElem "g:gtin" "g1", mkTextElem "g:item_group_id" "ig",
  mkTextElem "g:condition" "new", mkTextElem "g:age_group" "adult",
  mkTextElem "g:color" "red", mkTextElem "g:gender" "male"]⟩

/-- The record `create_product_instance` builds from `sampleItem`. -/
def sampleProduct : Product :=
  buildProduct sampleItem (some 12) none none none 0 0 none

/-- A feed item with id "7" and non-numeric price text "abc": its mapping
raises `ValueError` from `float`. -/
def badItem : Item := ⟨[mkTextElem "g:id" "7", mkTextElem "g:price" "abc"]⟩

/-- A persisted record with id "E", used to seed catalogs. -/
def existingProd : Product := { sampleProduct with id := some "E" }

/-- A feed item whose id "E" collides with `existingProd`. -/
def existItem : Item := ⟨[mkTextElem "g:id" "E"]⟩

/-- A concrete uploading user. -/
def u0 : User := ⟨"u@x", "u"⟩

/-- Two concrete admin recipients. -/
def adminA : Admin := ⟨"a@x"⟩

/-- The second concrete admin recipient. -/
def adminB : Admin := ⟨"b@x"⟩

/-- A broker oracle that rejects exactly the payloads addressed to
`adminA`, modelling one admin's enqueue failing. -/
def enqBad : NotificationData → Bool := fun d => d.admin_email != "a@x"

/-- Inversion of a successful `dbCreate`: the table was extended by exactly
the new record, which had a (fresh) id. -/
theorem dbCreate_ok_inv {cat : Catalog} {p : Product} {cat2 : Catalog}
    (h : dbCreate cat p = Except.ok cat2) :
    cat2 = cat ++ [p] ∧ ∃ i, p.id = some i ∧ catalogHas cat i = false := by
  unfold dbCreate at h
  cases hid : p.id with
  | none => rw [hid] at h; simp at h
  | some i =>
    rw [hid] at h
    by_cases hc : catalogHas cat i
    · simp [hc] at h
    · by_cases hr : requiredFieldsPresent p
      · simp [hc, hr] at h
        exact ⟨h.symm, i, rfl, by simp [hc]⟩
      · simp [hc, hr] at h

/-- Inversion of a successful `create_product_instance`: every fallible
extraction succeeded, the record is the one `buildProduct` assembles from
those values, and the record was persisted. -/
theorem create_ok_inv {cat : Catalog} {item : Item} {prod : Product} {cat2 : Catalog}
    (h : create_product_instance cat item = Except.ok (prod, cat2)) :
    ∃ price sale_price old_price final_price quantity additional_images_count options_percentage,
      get_float_text (findTag item "g:price") none = Except.ok price ∧
      get_float_text (findTag item "g:sale_price") none = Except.ok sale_price ∧
      get_float_text (findTag item "g:oldprice") none = Except.ok old_price ∧
      get_float_text (findTag item "g:finalprice") none = Except.ok final_price ∧
      pyInt (pyOr (get_text (findTag item "g:quantity") (some "0")) "0") = some quantity ∧
      pyInt (pyOr (get_text (findTag item "additional_images_count") (some "0")) "0") = some additional_images_count ∧
      get_float_text (findTag item "options_percentage") none = Except.ok options_percentage ∧
      prod = buildProduct item price sale_price old_price final_price quantity
        additional_images_count options_percentage ∧
      dbCreate cat prod = Except.ok cat2 := by
  unfold create_product_instance at h
  split at h
  next e hp => exact absurd h (by simp)
  next price hp =>
  split at h
  next e hs => exact absurd h (by simp)
  next sale hs =>
  split at h
  next e ho => exact absurd h (by simp)
  next old hoo =>
  split at h
  next e hf => exact absurd h (by simp)
  next fin hf =>
  split at h
  next hq => exact absurd h (by simp)
  next q hq =>
  split at h
  next ha => exact absurd h (by simp)
  next aic ha =>
  split at h
  next e hop => exact absurd h (by simp)
  next op hop =>
  split at h
  next e hdb => exact absurd h (by simp)
  next cat3 hdb =>
  simp only [Except.ok.injEq, Prod.mk.injEq] at h
  refine ⟨price, sale, old, fin, q, aic, op, hp, hs, hoo, hf, hq, ha, hop, h.1.symm, ?_⟩
  rw [h.1, h.2] at hdb
  exact hdb

/-- The existing-id branch of the loop: a truthy id already in the catalog
only appends to the `existing` list. -/
theorem step_existing {s : BatchState} {item : Item} {p : String}
    (hid : itemId item = some p) (hp : p ≠ "") (hhas : catalogHas s.catalog p = true) :
    step s item = { s with existing := s.existing ++ [p] } := by
  simp only [step]
  rw [hid]
  simp [pyTruthy, hhas, hp]

/-- The successful-create branch of the loop: when the existing check fails
and the mapper succeeds, the record is appended and the catalog advances. -/
theorem step_create_ok {s : BatchState} {item : Item} {prod : Product} {cat2 : Catalog}
    (hnotex : (pyTruthy (itemId item) && catalogHas s.catalog ((itemId item).getD "")) = false)
    (hok : create_product_instance s.catalog item = Except.ok (prod, cat2)) :
    step s item = { s with created := s.created ++ [prod], catalog := cat2 } := by
  simp only [step]
  rw [hnotex, hok]
  simp

/-- The failing-create branch of the loop: the exception is swallowed and
the id is appended to `problematic` exactly when it is truthy. -/
theorem step_create_err {s : BatchState} {item : Item} {e : PyErr}
    (hnotex : (pyTruthy (itemId item) && catalogHas s.catalog ((itemId item).getD "")) = false)
    (herr : create_product_instance s.catalog item = Except.error e) :
    step s item =
      if pyTruthy (itemId item) then
        { s with problematic := s.problematic ++ [(itemId item).getD ""] }
      else s := by
  simp only [step]
  rw [hnotex, herr]
  simp

/-- One loop iteration only ever appends to the catalog. -/
theorem step_catalog_extends (s : BatchState) (item : Item) :
    ∃ d, (step s item).catalog = s.catalog ++ d := by
  cases hc : pyTruthy (itemId item) && catalogHas s.catalog ((itemId item).getD "") with
  | true =>
    refine ⟨[], ?_⟩
    simp only [step]
    rw [hc]
    simp
  | false =>
    cases hcr : create_product_instance s.catalog item with
    | ok pc =>
      obtain ⟨prod, cat2⟩ := pc
      obtain ⟨price, sale, old, fin, q, aic, op, -, -, -, -, -, -, -, hprod, hdb⟩ :=
        create_ok_inv hcr
      obtain ⟨hcat, -⟩ := dbCreate_ok_inv hdb
      refine ⟨[prod], ?_⟩
      simp only [step]
      rw [hc, hcr]
      simpa using hcat
    | error e =>
      refine ⟨[], ?_⟩
      simp only [step]
      rw [hc, hcr]
      cases ht : pyTruthy (itemId item) <;> simp [ht]

/-- A whole run only ever appends to the catalog: every record persisted
before the run is still there, unchanged and in place, afterwards. -/
theorem processItems_catalog_extends (items : List Item) :
    ∀ s : BatchState, ∃ new, (processItems s items).catalog = s.catalog ++ new := by
  induction items with
  | nil => exact fun s => ⟨[], by simp [processItems]⟩
  | cons i rest ih =>
    intro s
    obtain ⟨d, hd⟩ := step_catalog_extends s i
    obtain ⟨new, hn⟩ := ih (step s i)
    exact ⟨d ++ new, by rw [processItems, hn, hd, List.append_assoc]⟩

/-- One loop iteration from an arbitrary accumulated state is the iteration
from empty lists over the same catalog, with its contributions appended
after the already-accumulated lists. -/
theorem step_delta (s : BatchState) (item : Item) :
    step s item =
      { existing := s.existing ++ (step ⟨[], [], [], s.catalog⟩ item).existing,
        problematic := s.problematic ++ (step ⟨[], [], [], s.catalog⟩ item).problematic,
        created := s.created ++ (step ⟨[], [], [], s.catalog⟩ item).created,
        catalog := (step ⟨[], [], [], s.catalog⟩ item).catalog } := by
  cases hc : pyTruthy (itemId item) && catalogHas s.catalog ((itemId item).getD "") with
  | true => simp [step, hc]
  | false =>
    cases hcr : create_product_instance s.catalog item with
    | ok pc =>
      obtain ⟨prod, cat2⟩ := pc
      simp [step, hc, hcr]
    | error e =>
      cases ht : pyTruthy (itemId item) with
      | false => simp [step, hc, hcr, ht]
      | true =>
        rw [ht] at hc
        simp only [Bool.true_and] at hc
        simp [step, hcr, ht, hc]

/-- A run from an arbitrary accumulated state is the run from empty lists
over the same catalog, with its contributions appended afterwards. -/
theorem processItems_delta (items : List Item) :
    ∀ s : BatchState,
      processItems s items =
        { existing := s.existing ++ (runBatch s.catalog items).existing,
          problematic := s.problematic ++ (runBatch s.catalog items).problematic,
          created := s.created ++ (runBatch s.catalog items).created,
          catalog := (runBatch s.catalog items).catalog } := by
  induction items with
  | nil => intro s; simp [processItems, runBatch]
  | cons i rest ih =>
    intro s
    have hr : runBatch s.catalog (i :: rest) =
        processItems (step ⟨[], [], [], s.catalog⟩ i) rest := rfl
    rw [processItems, ih (step s i), hr, ih (step ⟨[], [], [], s.catalog⟩ i),
      step_delta s i]
    simp [runBatch, List.append_assoc]

/-- Processing a concatenation of item lists processes the first part, then
the second from the resulting state. -/
theorem processItems_append (xs ys : List Item) :
    ∀ s : BatchState, processItems s (xs ++ ys) = processItems (processItems s xs) ys := by
  induction xs with
  | nil => intro s; rfl
  | cons i rest ih => intro s; rw [List.cons_append, processItems, processItems, ih]

/-- When the broker accepts everything, the inner product loop enqueues one
payload per product, in order, and does not raise. -/
theorem sendProducts_all {enqOk : NotificationData → Bool} {mk : Product → NotificationData}
    (henq : ∀ d, enqOk d = true) (ps : List Product) :
    sendProducts enqOk mk ps = (ps.map mk, false) := by
  induction ps with
  | nil => rfl
  | cons p rest ih => simp [sendProducts, henq, ih]

/-- When the broker accepts everything, the success dispatcher enqueues
exactly the (admin, product) grid of payloads, in loop order, and does not
raise. -/
theorem notifySuccess_all {enqOk : NotificationData → Bool} (henq : ∀ d, enqOk d = true)
    (user : User) (file_name : String) (products : List Product)
    (existing_product_ids problematic_product_ids : List String) (admins : List Admin) :
    notify_admins_for_products enqOk user file_name products
        existing_product_ids problematic_product_ids admins =
      (admins.flatMap fun a => products.map fun p =>
        mkSuccessData user file_name existing_product_ids problematic_product_ids p a, false) := by
  induction admins with
  | nil => rfl
  | cons a rest ih =>
    simp [notify_admins_for_products, sendProducts_all henq, ih, List.flatMap_cons]

/-- When the broker accepts everything, the failure dispatcher enqueues one
payload per admin, in order. -/
theorem notifyFailure_all {enqOk : NotificationData → Bool} (henq : ∀ d, enqOk d = true)
    (user : User) (file_name error : String) (admins : List Admin) :
    notify_failure_to_admins enqOk user file_name error admins =
      admins.map (mkFailureData user file_name error) := by
  induction admins with
  | nil => rfl
  | cons a rest ih => simp [notify_failure_to_admins, henq, ih]

/-- The (admin, product) payload grid has exactly admins × products entries. -/
theorem grid_length (f : Admin → Product → NotificationData)
    (products : List Product) (admins : List Admin) :
    (admins.flatMap fun a => products.map fun p => f a p).length
      = admins.length * products.length := by
  induction admins with
  | nil => simp
  | cons a rest ih =>
    simp [List.flatMap_cons, ih, Nat.succ_mul, Nat.add_comm]

/-- C1: a document that fails to parse makes `handle_uploaded_file` raise a
document-level error with no per-item result; a parsed document never
raises — an exception while mapping or creating an item is caught, the
item's id is appended to the problematic list exactly when it was readable
(truthy), an item without a readable id is added to no list, and the loop
continues with the remaining items, finally returning the three lists. -/
theorem C1_document_vs_item_errors (msg : String) (cat : Catalog) (items : List Item)
    (s : BatchState) (item : Item) (e : PyErr) :
    handle_uploaded_file (Except.error msg) cat = Except.error (PyErr.parseError msg) ∧
    (∃ r, handle_uploaded_file (Except.ok items) cat = Except.ok r) ∧
    ((pyTruthy (itemId item) && catalogHas s.catalog ((itemId item).getD "")) = false →
      create_product_instance s.catalog item = Except.error e →
      step s item =
        if pyTruthy (itemId item) then
          { s with problematic := s.problematic ++ [(itemId item).getD ""] }
        else s) ∧
    (∀ rest, processItems s (item :: rest) = processItems (step s item) rest) :=
  ⟨rfl, ⟨_, rfl⟩, fun h1 h2 => step_create_err h1 h2, fun _ => rfl⟩

/-- Witness for C1 at a malformed document, an empty parsed document and a
concrete item with id "7" and unparseable price text. -/
theorem C1_witness :
    handle_uploaded_file (Except.error "oops") [] = Except.error (PyErr.parseError "oops") ∧
    (∃ r, handle_uploaded_file (Except.ok [badItem]) [] = Except.ok r) ∧
    step ⟨[], [], [], []⟩ badItem =
      (if pyTruthy (itemId badItem) then
        { (⟨[], [], [], []⟩ : BatchState) with problematic := [] ++ [(itemId badItem).getD ""] }
      else ⟨[], [], [], []⟩) ∧
    processItems ⟨[], [], [], []⟩ (badItem :: []) = processItems (step ⟨[], [], [], []⟩ badItem) [] := by
  have h := C1_document_vs_item_errors "oops" [] [badItem] ⟨[], [], [], []⟩ badItem PyErr.valueError
  exact ⟨h.1, h.2.1, h.2.2.1 (by decide) (by decide), h.2.2.2 []⟩

/-- C2: `get_float_text` returns the default, attempting no parse, when the
node is absent or has no text; on a node present with text it splits the
text on whitespace and parses the first token, returning the parsed number
on success and raising a parse error — never silently defaulting — when the
token is not numeric. -/
theorem C2_get_float_text_contract (e : Elem) (d : Option Rat) (t tok : String)
    (toks : List String) :
    get_float_text none d = Except.ok d ∧
    (e.text = none → get_float_text (some e) d = Except.ok d) ∧
    (e.text = some "" → get_float_text (some e) d = Except.ok d) ∧
    (e.text = some t → t ≠ "" → pySplit t = tok :: toks →
      (∀ v, pyFloat tok = some v → get_float_text (some e) d = Except.ok (some v)) ∧
      (pyFloat tok = none → get_float_text (some e) d = Except.error PyErr.valueError)) := by
  refine ⟨rfl, fun h => by simp [get_float_text, h], fun h => by simp [get_float_text, h], ?_⟩
  intro ht hne hsp
  constructor
  · intro v hv
    simp [get_float_text, ht, hne, hsp, hv]
  · intro hv
    simp [get_float_text, ht, hne, hsp, hv]

/-- Witness for C2 at a numeric first token with a trailing unit and at a
non-numeric token. -/
theorem C2_witness :
    get_float_text (some (mkTextElem "g:price" "7 USD")) none = Except.ok (some 7) ∧
    get_float_text (some (mkTextElem "g:price" "abc")) none = Except.error PyErr.valueError := by
  have h1 := (C2_get_float_text_contract (mkTextElem "g:price" "7 USD") none "7 USD" "7"
    ["USD"]).2.2.2 (by decide) (by decide) (by decide)
  have h2 := (C2_get_float_text_contract (mkTextElem "g:price" "abc") none "abc" "abc"
    []).2.2.2 (by decide) (by decide) (by decide)
  exact ⟨h1.1 7 (by decide), h2.2 (by decide)⟩

/-- C8 counterexample: an element whose text is the empty string — the
claim says `get_text` then returns the default, but the source only checks
`element.text is not None`, so the empty text itself is returned. -/
theorem C8_counterexample :
    get_text (some { tag := "title", attrib := [], text := some "" }) (some "d") = some "" ∧
    (some "" : Option String) ≠ some "d" := by decide

/-- C8 amended: `get_text` returns the node's text exactly when the node
exists and its text is present (not `None`) — including the empty string —
and returns the default when the node is absent or its text is `None`; it
never fails (it is a total function). -/
theorem C8_get_text_amended (e : Elem) (d : Option String) :
    get_text none d = d ∧
    (e.text = none → get_text (some e) d = d) ∧
    (∀ t, e.text = some t → get_text (some e) d = some t) :=
  ⟨rfl, fun h => by simp [get_text, h], fun t h => by simp [get_text, h]⟩

/-- Witness for C8 at an absent node, a node with no text and a node with
text "E". -/
theorem C8_witness :
    get_text none (some "d") = some "d" ∧
    get_text (some { tag := "g:id", attrib := [], text := none }) (some "d") = some "d" ∧
    get_text (some (mkTextElem "g:id" "E")) (some "d") = some "E" := by
  refine ⟨(C8_get_text_amended (mkTextElem "g:id" "E") (some "d")).1, ?_, ?_⟩
  · exact (C8_get_text_amended ⟨"g:id", [], none⟩ (some "d")).2.1 rfl
  · exact (C8_get_text_amended (mkTextElem "g:id" "E") (some "d")).2.2 "E" rfl

/-- C10: on a node whose text is non-empty but all whitespace, splitting
yields no tokens and `get_float_text` fails with an indexing error — not
the default and not a numeric parse error. -/
theorem C10_whitespace_only_text_indexing :
    get_float_text (some (mkTextElem "g:price" " ")) none = Except.error PyErr.indexError ∧
    pySplit " " = [] ∧
    (Except.error PyErr.indexError : Except PyErr (Option Rat)) ≠ Except.ok none ∧
    (Except.error PyErr.indexError : Except PyErr (Option Rat)) ≠ Except.error PyErr.valueError := by
  decide

/-- C3: an item whose readable id already exists in the catalog when it is
processed is only appended to the existing list — the state is otherwise
untouched: no create, no error, no catalog mutation; and over a whole run
the catalog is only ever appended to, so every previously stored record is
left completely unchanged. -/
theorem C3_existing_id_skip (s : BatchState) (item : Item) (p : String)
    (cat : Catalog) (items : List Item) :
    (itemId item = some p → p ≠ "" → catalogHas s.catalog p = true →
      step s item = { s with existing := s.existing ++ [p] }) ∧
    (∃ new, (runBatch cat items).catalog = cat ++ new) :=
  ⟨fun hid hp hhas => step_existing hid hp hhas,
   processItems_catalog_extends items { existing := [], problematic := [], created := [], catalog := cat }⟩

/-- Witness for C3 at an item with id "E" over a catalog seeded with a
record of id "E". -/
theorem C3_witness :
    step ⟨[], [], [], [existingProd]⟩ existItem =
      { existing := [] ++ ["E"], problematic := [], created := [], catalog := [existingProd] } ∧
    (∃ new, (runBatch [] [sampleItem]).catalog = [] ++ new) := by
  have h := C3_existing_id_skip ⟨[], [], [], [existingProd]⟩ existItem "E" [] [sampleItem]
  exact ⟨h.1 (by decide) (by decide) (by decide), h.2⟩

/-- C5 counterexample: a parsed document consisting of the same well-formed
item twice, with id "X" absent from the catalog.  The first copy is created
and committed, so the second copy is caught by the existence check and
reported as existing — the problematic list stays empty, contradicting the
claim that the second id is reported as problematic rather than existing. -/
theorem C5_counterexample :
    itemId sampleItem = some "X" ∧
    catalogHas [] "X" = false ∧
    handle_uploaded_file (Except.ok [sampleItem, sampleItem]) [] =
      Except.ok (["X"], [], [sampleProduct]) := by decide

/-- C5 amended: in a two-item document whose items share an id absent from
the catalog, when the first item maps and persists successfully the second
item is reported in the existing list (the existence check observes the
record just committed by the first item), not in the problematic list, and
no second create is attempted. -/
theorem C5_intra_batch_duplicate (cat : Catalog) (i1 i2 : Item) (p : String)
    (prod : Product) (cat2 : Catalog)
    (h1 : itemId i1 = some p) (h2 : itemId i2 = some p) (hp : p ≠ "")
    (hfresh : catalogHas cat p = false)
    (hok : create_product_instance cat i1 = Except.ok (prod, cat2)) :
    handle_uploaded_file (Except.ok [i1, i2]) cat = Except.ok ([p], [], [prod]) := by
  obtain ⟨price, sale, old, fin, q, aic, op, -, -, -, -, -, -, -, hprod, hdb⟩ := create_ok_inv hok
  obtain ⟨hcat2, -⟩ := dbCreate_ok_inv hdb
  have hid : prod.id = some p := by
    rw [hprod]
    exact h1
  have hnotex : (pyTruthy (itemId i1) && catalogHas cat ((itemId i1).getD "")) = false := by
    rw [h1]
    simp [pyTruthy, hfresh]
  have e1 : step ⟨[], [], [], cat⟩ i1 =
      { existing := [], problematic := [], created := [] ++ [prod], catalog := cat2 } :=
    step_create_ok hnotex hok
  have hhas2 : catalogHas cat2 p = true := by
    rw [hcat2]
    simp [catalogHas, hid]
  have e2 : step (⟨[], [], [] ++ [prod], cat2⟩ : BatchState) i2 =
      ⟨[] ++ [p], [], [] ++ [prod], cat2⟩ :=
    step_existing h2 hp hhas2
  show Except.ok ((runBatch cat [i1, i2]).existing, (runBatch cat [i1, i2]).problematic,
    (runBatch cat [i1, i2]).created) = _
  have : runBatch cat [i1, i2] =
      { existing := [] ++ [p], problematic := [], created := [] ++ [prod], catalog := cat2 } := by
    unfold runBatch processItems
    rw [e1]
    unfold processItems
    rw [e2]
    rfl
  rw [this]
  simp

/-- Witness for C5's amended statement at the concrete duplicated item. -/
theorem C5_amended_witness :
    handle_uploaded_file (Except.ok [sampleItem, sampleItem]) [] =
      Except.ok (["X"], [], [sampleProduct]) :=
  C5_intra_batch_duplicate [] sampleItem sampleItem "X" sampleProduct [sampleProduct]
    (by decide) (by decide) (by decide) (by decide) (by decide)

/-- A feed item whose `g:quantity` text is not numeric. -/
def badQtyItem : Item := ⟨[mkTextElem "g:id" "9", mkTextElem "g:quantity" "many"]⟩

/-- C6: a price element whose text fails numeric extraction fails the whole
item (and in the batch the item is recorded as problematic, not created); a
quantity element with non-numeric text fails the whole item; an item whose
`g:quantity` element is absent maps with quantity 0; an item whose optional
`g:sale_price` element is absent maps with that field null. -/
theorem C6_numeric_strictness (cat : Catalog) (item : Item) (prod : Product)
    (cat2 : Catalog) (e : PyErr) :
    (get_float_text (findTag item "g:price") none = Except.error e →
      create_product_instance cat item = Except.error e) ∧
    (pyInt (pyOr (get_text (findTag item "g:quantity") (some "0")) "0") = none →
      ∃ e2, create_product_instance cat item = Except.error e2) ∧
    (findTag item "g:quantity" = none →
      create_product_instance cat item = Except.ok (prod, cat2) → prod.quantity = 0) ∧
    (findTag item "g:sale_price" = none →
      create_product_instance cat item = Except.ok (prod, cat2) → prod.sale_price = none) ∧
    (get_float_text (findTag item "g:price") none = Except.error e →
      (pyTruthy (itemId item) && catalogHas cat ((itemId item).getD "")) = false →
      step ⟨[], [], [], cat⟩ item =
        if pyTruthy (itemId item) then ⟨[], [] ++ [(itemId item).getD ""], [], cat⟩
        else (⟨[], [], [], cat⟩ : BatchState)) := by
  refine ⟨?_, ?_, ?_, ?_, ?_⟩
  · intro h
    simp [create_product_instance, h]
  · intro hq
    cases hm1 : get_float_text (findTag item "g:price") none with
    | error e1 => exact ⟨e1, by simp [create_product_instance, hm1]⟩
    | ok v1 =>
      cases hm2 : get_float_text (findTag item "g:sale_price") none with
      | error e2 => exact ⟨e2, by simp [create_product_instance, hm1, hm2]⟩
      | ok v2 =>
        cases hm3 : get_float_text (findTag item "g:oldprice") none with
        | error e3 => exact ⟨e3, by simp [create_product_instance, hm1, hm2, hm3]⟩
        | ok v3 =>
          cases hm4 : get_float_text (findTag item "g:finalprice") none with
          | error e4 => exact ⟨e4, by simp [create_product_instance, hm1, hm2, hm3, hm4]⟩
          | ok v4 =>
            exact ⟨PyErr.valueError,
              by simp [create_product_instance, hm1, hm2, hm3, hm4, hq]⟩
  · intro habs hok
    obtain ⟨price, sale, old, fin, q, aic, op, -, -, -, -, hq, -, -, hprod, -⟩ :=
      create_ok_inv hok
    rw [habs] at hq
    have h0 : pyInt (pyOr (get_text (none : Option Elem) (some "0")) "0") = some 0 := by decide
    rw [h0] at hq
    have hq0 : q = 0 := (Option.some.inj hq).symm
    rw [hprod, hq0]
    rfl
  · intro habs hok
    obtain ⟨price, sale, old, fin, q, aic, op, -, hs, -, -, -, -, -, hprod, -⟩ :=
      create_ok_inv hok
    rw [habs] at hs
    have hsn : sale = none :=
      (Except.ok.inj (show (Except.ok (none : Option Rat) : Except PyErr (Option Rat))
        = Except.ok sale from hs)).symm
    rw [hprod, hsn]
    rfl
  · intro h hnotex
    have herr : create_product_instance cat item = Except.error e := by
      simp [create_product_instance, h]
    have hst := step_create_err (s := ⟨[], [], [], cat⟩) hnotex herr
    simpa using hst

/-- Witness for C6 at items with bad price text, bad quantity text, and
absent quantity / sale_price elements. -/
theorem C6_witness :
    create_product_instance [] badItem = Except.error PyErr.valueError ∧
    (∃ e2, create_product_instance [] badQtyItem = Except.error e2) ∧
    sampleProduct.quantity = 0 ∧
    sampleProduct.sale_price = none ∧
    step ⟨[], [], [], []⟩ badItem =
      (if pyTruthy (itemId badItem) then ⟨[], [] ++ [(itemId badItem).getD ""], [], []⟩
       else (⟨[], [], [], []⟩ : BatchState)) := by
  have ha := C6_numeric_strictness [] badItem sampleProduct [sampleProduct] PyErr.valueError
  have hb := C6_numeric_strictness [] badQtyItem sampleProduct [sampleProduct] PyErr.valueError
  have hc := C6_numeric_strictness [] sampleItem sampleProduct [sampleProduct] PyErr.valueError
  exact ⟨ha.1 (by decide), hb.2.1 (by decide), hc.2.2.1 (by decide) (by decide),
    hc.2.2.2.1 (by decide) (by decide), ha.2.2.2.2 (by decide) (by decide)⟩

/-- C7: the three lists preserve document order — a run over a
concatenation of item lists is the run over the first part followed, from
the resulting catalog, by the run over the second, each list being the
corresponding concatenation; and a singleton run is one loop iteration. -/
theorem C7_order_preservation (cat : Catalog) (xs ys : List Item) (i : Item) :
    runBatch cat (xs ++ ys) =
      { existing := (runBatch cat xs).existing
          ++ (runBatch (runBatch cat xs).catalog ys).existing,
        problematic := (runBatch cat xs).problematic
          ++ (runBatch (runBatch cat xs).catalog ys).problematic,
        created := (runBatch cat xs).created
          ++ (runBatch (runBatch cat xs).catalog ys).created,
        catalog := (runBatch (runBatch cat xs).catalog ys).catalog } ∧
    runBatch cat [i] = step ⟨[], [], [], cat⟩ i := by
  constructor
  · rw [runBatch, processItems_append]
    exact processItems_delta ys (runBatch cat xs)
  · rfl

/-- C4: with an accepting broker, the success dispatcher enqueues exactly
the (admin, created-record) grid of payloads — admins × created records in
count, zero when no record was created regardless of the other lists — each
payload carrying the full existing and problematic id lists; the failure
dispatcher enqueues exactly one payload per admin, carrying the error
string. -/
theorem C4_notification_fanout (enqOk : NotificationData → Bool) (user : User)
    (file_name : String) (products : List Product)
    (existing_product_ids problematic_product_ids : List String) (admins : List Admin)
    (error : String) (henq : ∀ d, enqOk d = true) :
    notify_admins_for_products enqOk user file_name products
        existing_product_ids problematic_product_ids admins =
      (admins.flatMap fun a => products.map fun p =>
        mkSuccessData user file_name existing_product_ids problematic_product_ids p a,
       false) ∧
    (admins.flatMap fun a => products.map fun p =>
        mkSuccessData user file_name existing_product_ids problematic_product_ids p a).length
      = admins.length * products.length ∧
    (products = [] →
      notify_admins_for_products enqOk user file_name products
        existing_product_ids problematic_product_ids admins = ([], false)) ∧
    (∀ d ∈ (notify_admins_for_products enqOk user file_name products
        existing_product_ids problematic_product_ids admins).1,
      d.existing_product_ids = some existing_product_ids ∧
      d.problematic_product_ids = some problematic_product_ids) ∧
    notify_failure_to_admins enqOk user file_name error admins =
      admins.map (mkFailureData user file_name error) ∧
    (admins.map (mkFailureData user file_name error)).length = admins.length ∧
    (∀ d ∈ notify_failure_to_admins enqOk user file_name error admins,
      d.error = some error) := by
  have hs := notifySuccess_all henq user file_name products
    existing_product_ids problematic_product_ids admins
  have hf := notifyFailure_all henq user file_name error admins
  refine ⟨hs, grid_length _ products admins, ?_, ?_, hf, by simp, ?_⟩
  · intro hempty
    subst hempty
    rw [hs]
    simp
  · intro d hd
    rw [hs] at hd
    simp only [List.mem_flatMap, List.mem_map] at hd
    obtain ⟨a, -, p, -, rfl⟩ := hd
    exact ⟨rfl, rfl⟩
  · intro d hd
    rw [hf] at hd
    simp only [List.mem_map] at hd
    obtain ⟨a, -, rfl⟩ := hd
    rfl

/-- Witness for C4 with an always-accepting broker, two admins, one created
record, and non-empty existing/problematic lists. -/
theorem C4_witness :
    notify_admins_for_products (fun _ => true) u0 "f.xml" [sampleProduct] ["E1"] ["P1"]
        [adminA, adminB] =
      ([adminA, adminB].flatMap fun a => [sampleProduct].map fun p =>
        mkSuccessData u0 "f.xml" ["E1"] ["P1"] p a, false) ∧
    notify_failure_to_admins (fun _ => true) u0 "f.xml" "boom" [adminA, adminB] =
      [adminA, adminB].map (mkFailureData u0 "f.xml" "boom") := by
  have h := C4_notification_fanout (fun _ => true) u0 "f.xml" [sampleProduct] ["E1"] ["P1"]
    [adminA, adminB] "boom" (fun _ => rfl)
  exact ⟨h.1, h.2.2.2.2.1⟩

/-- C9 counterexample: a broker that rejects the payloads addressed to
`adminA`.  The success dispatcher — which has no per-payload exception
handler — raises and enqueues nothing, abandoning `adminB`'s payload,
contradicting the claim that both dispatchers skip the failing payload and
continue; the failure dispatcher does skip and continue. -/
theorem C9_counterexample :
    enqBad (mkSuccessData u0 "f.xml" [] [] sampleProduct adminA) = false ∧
    notify_admins_for_products enqBad u0 "f.xml" [sampleProduct] [] [] [adminA, adminB]
      = ([], true) ∧
    notify_failure_to_admins enqBad u0 "f.xml" "boom" [adminA, adminB]
      = [mkFailureData u0 "f.xml" "boom" adminB] := by decide

/-- C9 amended: only the failure dispatcher isolates enqueue failures — a
failing failure payload is skipped and the remaining admins are still
enqueued, and the function never raises; the success dispatcher has no
per-payload handler, so a failing success payload makes it raise with no
further payload (for this or any remaining admin) enqueued. -/
theorem C9_dispatcher_failure_isolation (enqOk : NotificationData → Bool) (user : User)
    (fn err : String) (admin : Admin) (rest : List Admin)
    (p : Product) (ps : List Product) (existing problematic : List String) :
    (notify_failure_to_admins enqOk user fn err (admin :: rest) =
      (if enqOk (mkFailureData user fn err admin) then [mkFailureData user fn err admin]
       else []) ++ notify_failure_to_admins enqOk user fn err rest) ∧
    (enqOk (mkFailureData user fn err admin) = false →
      notify_failure_to_admins enqOk user fn err (admin :: rest) =
        notify_failure_to_admins enqOk user fn err rest) ∧
    (enqOk (mkSuccessData user fn existing problematic p admin) = false →
      notify_admins_for_products enqOk user fn (p :: ps) existing problematic
        (admin :: rest) = ([], true)) := by
  refine ⟨?_, ?_, ?_⟩
  · cases h : enqOk (mkFailureData user fn err admin) <;>
      simp [notify_failure_to_admins, h]
  · intro h
    simp [notify_failure_to_admins, h]
  · intro h
    simp [notify_admins_for_products, sendProducts, h]

/-- Witness for C9's amended statement at the concrete rejecting broker. -/
theorem C9_amended_witness :
    notify_failure_to_admins enqBad u0 "f.xml" "boom" [adminA, adminB] =
      notify_failure_to_admins enqBad u0 "f.xml" "boom" [adminB] ∧
    notify_admins_for_products enqBad u0 "f.xml" [sampleProduct] [] [] [adminA, adminB]
      = ([], true) := by
  have h := C9_dispatcher_failure_isolation enqBad u0 "f.xml" "boom" adminA [adminB]
    sampleProduct [] [] []
  exact ⟨h.2.1 (by decide), h.2.2 (by decide)⟩
